import Mathlib

/-!
Shallow embedding of the wp_mcp_server request-dispatch core:
the JSON-RPC 2.0 engine (src/json-rpc/handler.ts), the API-key
manager (src/middleware/auth.ts) and the WordPress site manager
(src/wordpress/site-manager.ts), together with theorems settling
the specification claims about them.

JavaScript values reachable by the dispatch code are modelled by the
inductive type JsValue; machine numbers appearing in the claims
(ids, error codes, timestamps) are modelled as Int; asynchronous
fallible actions (handler invocations, connectivity probes, file
reads) are modelled by explicit outcome parameters, so every
definition is an executable total function of its inputs.
-/

/-- A JavaScript value as seen by the dispatch core: null, undefined,
booleans, numbers (modelled as Int), strings, arrays and plain objects
(association lists of fields; keys unique after JSON parsing). -/
inductive JsValue where
  | vNull : JsValue
  | vUndefined : JsValue
  | vBool (b : Bool) : JsValue
  | vNum (n : Int) : JsValue
  | vStr (s : String) : JsValue
  | vArr (items : List JsValue) : JsValue
  | vObj (fields : List (String × JsValue)) : JsValue
deriving Repr

/-- Property read on an object field list: a missing property reads as
undefined, exactly like JavaScript member access. -/
def getField : List (String × JsValue) → String → JsValue
  | [], _ => .vUndefined
  | (k, v) :: rest, fieldName => if k == fieldName then v else getField rest fieldName

/-- Property read on an arbitrary JsValue: non-objects have no named
properties, so the read yields undefined. -/
def getFieldV : JsValue → String → JsValue
  | .vObj fields, fieldName => getField fields fieldName
  | _, _ => .vUndefined

/-- JavaScript falsiness restricted to the modelled values
(null, undefined, false, 0 and the empty string are falsy). -/
def jsFalsy : JsValue → Bool
  | .vNull => true
  | .vUndefined => true
  | .vBool b => !b
  | .vNum n => n == 0
  | .vStr s => s == ""
  | _ => false

/-- Values v with typeof v equal to the string "object": objects,
arrays and null. -/
def jsTypeofObject : JsValue → Bool
  | .vNull => true
  | .vArr _ => true
  | .vObj _ => true
  | _ => false

/-- The jsonrpc field check of validateRequest: req.jsonrpc must be the
string "2.0". -/
def isVersion20 : JsValue → Bool
  | .vStr s => s == "2.0"
  | _ => false

/-- The method field check of validateRequest: a non-empty string. -/
def isNonEmptyStr : JsValue → Bool
  | .vStr s => s != ""
  | _ => false

/-- The params check of validateRequest fails when params is present
(not undefined) and is either null or not of typeof object. -/
def isBadParams : JsValue → Bool
  | .vUndefined => false
  | .vNull => true
  | .vObj _ => false
  | .vArr _ => false
  | _ => true

/-- The id check of validateRequest fails when id is none of undefined,
null, string, number. -/
def isBadId : JsValue → Bool
  | .vUndefined => false
  | .vNull => false
  | .vStr _ => false
  | .vNum _ => false
  | _ => true

/-- An id value that is present and of a wire-legal shape: a string, a
number, or null (not undefined). -/
def isSalvageable : JsValue → Bool
  | .vNull => true
  | .vStr _ => true
  | .vNum _ => true
  | _ => false

/-- String payload of a string value (defaults to the empty string;
only applied after validation guarantees a string). -/
def jsStrVal : JsValue → String
  | .vStr s => s
  | _ => ""

/-! JSON-RPC wire shapes, from src/types/json-rpc.ts. -/

/-- JsonRpcErrorObject: code, message and optional data. -/
structure JsonRpcErrorObj where
  code : Int
  message : String
  data : Option JsValue
deriving Repr

/-- A JSON-RPC response; jsonrpc is always the literal "2.0" and is left
implicit. Exactly one of result / error is set by the handler code; the
id field holds whatever id value the code attached (possibly undefined,
when an invalid envelope carried no id to salvage). -/
structure JsonRpcResponse where
  result : Option JsValue
  error : Option JsonRpcErrorObj
  id : JsValue
deriving Repr

/-- Result of processRequest on one input: null (no response), a single
response, or an array whose elements are the non-null results of the
batch items (a nested array item would contribute its own array, which
the TypeScript filter keeps as-is, hence the nesting). -/
inductive RpcResult where
  | resp (r : JsonRpcResponse) : RpcResult
  | arr (rs : List RpcResult) : RpcResult
deriving Repr

/-! Error codes from JsonRpcHandler.ERROR_CODES. -/

def PARSE_ERROR : Int := -32700
def INVALID_REQUEST : Int := -32600
def METHOD_NOT_FOUND : Int := -32601
def INVALID_PARAMS : Int := -32602
def INTERNAL_ERROR : Int := -32603
def WP_AUTH_ERROR : Int := -32000
def WP_PERMISSION_ERROR : Int := -32001
def WP_RESOURCE_NOT_FOUND : Int := -32002
def WP_VALIDATION_ERROR : Int := -32003

/-- A value thrown inside invokeMethod: a JsonRpcError instance (code,
message, optional data), a schema validation error whose name is
ZodError (message and the formatted detail), or any other thrown error
(its name and message). -/
inductive ThrownError where
  | rpcError (code : Int) (message : String) (data : Option JsValue) : ThrownError
  | zodError (message : String) (formatted : JsValue) : ThrownError
  | genericError (errName : String) (message : String) : ThrownError
deriving Repr

/-- The message property of a thrown error. -/
def ThrownError.errMessage : ThrownError → String
  | .rpcError _ m _ => m
  | .zodError m _ => m
  | .genericError _ m => m

/-- AuthContext from src/types/context.ts (stored as the second
embedded document of src/src/types/json-rpc.ts): the authorization
details attached to a request after credential validation. -/
structure AuthContext where
  clientId : String
  authorizedSites : List String
  permissions : List String
  scopes : List String
deriving Repr

/-- The RequestContext class from src/types/context.ts (stored as the
second embedded document of src/src/types/json-rpc.ts): correlation
id, the performance.now reading taken at construction, the call-path
list, and the optional auth context. -/
structure RequestContext where
  correlationId : String
  startTime : Int
  path : List String
  authContext : Option AuthContext
deriving Repr

/-- The constructor new RequestContext(correlationId?, parent?). The
two environment reads it performs are explicit parameters: freshUuid
is the randomUUID draw (consulted only when the given correlation id
is absent or falsy, the empty string) and now is the performance.now
reading stored as startTime. The auth context is copied from the
parent when the parent has one; the path is copied from the parent
when non-empty and stays empty otherwise, which in both cases is the
parent's path. -/
def RequestContext.construct (correlationId : Option String)
    (parent : Option RequestContext) (freshUuid : String) (now : Int) : RequestContext :=
  { correlationId :=
      match correlationId with
      | some cid => if cid == "" then freshUuid else cid
      | none => freshUuid
    startTime := now
    path :=
      match parent with
      | some p => p.path
      | none => []
    authContext :=
      match parent with
      | some p => p.authContext
      | none => none }

/-- RequestContext.createChild(pathSegment?): a new context built by
the constructor from this context's correlation id and this context as
parent; the path segment is appended only when given and truthy (a
missing or empty segment appends nothing) — the engine's batch path
calls createChild() with no argument, so its children keep the
parent's path unchanged. -/
def RequestContext.createChild (ctx : RequestContext) (freshUuid : String) (now : Int)
    (pathSegment : Option String) : RequestContext :=
  let child := RequestContext.construct (some ctx.correlationId) (some ctx) freshUuid now
  match pathSegment with
  | some seg => if seg == "" then child else { child with path := child.path ++ [seg] }
  | none => child

/-- The record RequestContext.logContext builds for structured
logging. -/
structure LogContext where
  correlationId : String
  elapsedMs : Int
  path : String
  clientId : Option String
deriving Repr

/-- RequestContext.logContext against the given performance.now
reading: correlation id, elapsed time, the dot-joined path and the
auth context's client id when present. -/
def RequestContext.logContext (ctx : RequestContext) (now : Int) : LogContext :=
  { correlationId := ctx.correlationId
    elapsedMs := now - ctx.startTime
    path := String.intercalate "." ctx.path
    clientId := ctx.authContext.map (fun a => a.clientId) }

/-- A registered method: its handler (modelled as a total function to
the outcome the asynchronous TypeScript handler settles to), its Zod
schema (modelled as the outcome of schema.parse: the parsed params, or
the ZodError message plus formatted detail), name and description. -/
structure MethodHandler where
  handler : JsValue → RequestContext → Except ThrownError JsValue
  schema : JsValue → Except (String × JsValue) JsValue
  methodName : String
  description : Option String

/-- Engine state: the method registry Map (insertion-ordered
association list) and whether NODE_ENV is development (read by
handleMethodError). -/
structure EngineState where
  methods : List (String × MethodHandler)
  devMode : Bool

/-- JavaScript Map.get. -/
def mapGet {α : Type} : List (String × α) → String → Option α
  | [], _ => none
  | (k, v) :: rest, key => if k == key then some v else mapGet rest key

/-- JavaScript Map.set: replaces the value in place when the key exists
(keeping insertion order), appends otherwise. -/
def mapSet {α : Type} (m : List (String × α)) (key : String) (v : α) : List (String × α) :=
  match m with
  | [] => [(key, v)]
  | (k, w) :: rest => if k == key then (key, v) :: rest else (k, w) :: mapSet rest key v

/-- JsonRpcHandler.registerMethod: stores the descriptor in the
registry Map with no duplicate check (Map.set overwrites an existing
entry) and returns. -/
def registerMethod (st : EngineState) (name : String)
    (handler : JsValue → RequestContext → Except ThrownError JsValue)
    (schema : JsValue → Except (String × JsValue) JsValue)
    (description : Option String) : EngineState :=
  { st with methods := mapSet st.methods name ⟨handler, schema, name, description⟩ }

/-- Outcome of JsonRpcHandler.validateRequest: validity, the salvaged
id (undefined when the envelope was not an object), and the detail
string. -/
structure ValidationResult where
  valid : Bool
  salvagedId : JsValue
  errMsg : Option String

/-- JsonRpcHandler.validateRequest, clause for clause: object check
(falsy or non-object fails with no id), jsonrpc literal check, method
non-empty-string check, params shape check (all three salvage req.id),
and the id type check (which reports id null). -/
def validateRequest (request : JsValue) : ValidationResult :=
  if jsFalsy request || !jsTypeofObject request then
    ⟨false, .vUndefined, some "Request must be an object"⟩
  else if !isVersion20 (getFieldV request "jsonrpc") then
    ⟨false, getFieldV request "id", some "Invalid or missing jsonrpc field (must be \"2.0\")"⟩
  else if !isNonEmptyStr (getFieldV request "method") then
    ⟨false, getFieldV request "id", some "Method must be a non-empty string"⟩
  else if isBadParams (getFieldV request "params") then
    ⟨false, getFieldV request "id", some "Params must be an object or array"⟩
  else if isBadId (getFieldV request "id") then
    ⟨false, .vNull, some "Id must be string, number, null, or undefined"⟩
  else
    ⟨true, getFieldV request "id", none⟩

/-- JsonRpcHandler.createErrorResponse. -/
def createErrorResponse (id : JsValue) (code : Int) (message : String)
    (data : Option JsValue) : JsonRpcResponse :=
  { result := none, error := some ⟨code, message, data⟩, id := id }

/-- JsonRpcHandler.invokeMethod: registry lookup (throwing a
JsonRpcError METHOD_NOT_FOUND when absent), schema.parse on the raw
params (a ZodError becomes a JsonRpcError INVALID_PARAMS carrying the
formatted detail as data), then the handler call; a handler-thrown
value named ZodError is wrapped the same way by the shared catch, any
other thrown value is rethrown unchanged. -/
def invokeMethod (st : EngineState) (methodName : String) (params : JsValue)
    (ctx : RequestContext) : Except ThrownError JsValue :=
  match mapGet st.methods methodName with
  | none => .error (.rpcError METHOD_NOT_FOUND ("Method not found: " ++ methodName) none)
  | some m =>
    match m.schema params with
    | .error e => .error (.rpcError INVALID_PARAMS ("Invalid params: " ++ e.1) (some e.2))
    | .ok validated =>
      match m.handler validated ctx with
      | .ok r => .ok r
      | .error (.zodError msg formatted) =>
          .error (.rpcError INVALID_PARAMS ("Invalid params: " ++ msg) (some formatted))
      | .error e => .error e

/-- JsonRpcHandler.handleMethodError: a JsonRpcError instance passes
its code, message and data through verbatim; anything else maps to
INTERNAL_ERROR, exposing the underlying message as data only in
development mode. -/
def handleMethodError (devMode : Bool) (id : JsValue) (e : ThrownError) : JsonRpcResponse :=
  match e with
  | .rpcError code msg dat => createErrorResponse id code msg dat
  | e2 =>
      createErrorResponse id INTERNAL_ERROR "Internal server error"
        (if devMode then some (.vStr e2.errMessage) else none)

/-- The single-envelope path of JsonRpcHandler.processRequest:
structural validation (failure yields INVALID_REQUEST carrying the
salvaged id and the detail string as data); then, for an envelope whose
id reads as undefined, the handler is invoked with NO surrounding
per-call try, so a thrown error escapes to the outer catch of
processRequest, which logs and returns an INTERNAL_ERROR response with
id null and data holding the thrown message; for an envelope with an id
the inner try wraps success as a result response and routes a thrown
error through handleMethodError, both carrying the request id. -/
def processSingle (st : EngineState) (ctx : RequestContext) (request : JsValue) :
    Option RpcResult :=
  let v := validateRequest request
  if v.valid then
    let methodName := jsStrVal (getFieldV request "method")
    let params := getFieldV request "params"
    match getFieldV request "id" with
    | .vUndefined =>
      match invokeMethod st methodName params ctx with
      | .ok _ => none
      | .error e =>
          some (.resp (createErrorResponse .vNull INTERNAL_ERROR "Internal error"
            (some (.vObj [("message", .vStr e.errMessage)]))))
    | idv =>
      match invokeMethod st methodName params ctx with
      | .ok r => some (.resp { result := some r, error := none, id := idv })
      | .error e => some (.resp (handleMethodError st.devMode idv e))
  else
    some (.resp (createErrorResponse v.salvagedId INVALID_REQUEST "Invalid Request"
      (v.errMsg.map JsValue.vStr)))

mutual
/-- JsonRpcHandler.processRequest: an array input goes to
processBatchRequest — an empty batch yields the one-element array
holding the INVALID_REQUEST "Empty batch" response (the TypeScript
returns the literal array [response]); a non-empty batch maps
processRequest over the items, each against context.createChild() with
no path segment, and keeps the non-null results in input order
(Promise.all preserves positional order). Any other input takes the
single-envelope path. The freshUuid and clock parameters stand for the
randomUUID and performance.now draws the child-context constructions
read from the environment; no engine output depends on them, so the
embedding threads one quantified pair through the recursion. -/
def processRequest (st : EngineState) (freshUuid : String) (clock : Int)
    (ctx : RequestContext) : JsValue → Option RpcResult
  | .vArr items =>
    match items with
    | [] =>
        some (.arr [.resp (createErrorResponse .vNull INVALID_REQUEST
          "Invalid Request: Empty batch" none)])
    | x :: xs => some (.arr ((processItems st freshUuid clock ctx (x :: xs)).filterMap id))
  | .vNull => processSingle st ctx .vNull
  | .vUndefined => processSingle st ctx .vUndefined
  | .vBool b => processSingle st ctx (.vBool b)
  | .vNum n => processSingle st ctx (.vNum n)
  | .vStr s => processSingle st ctx (.vStr s)
  | .vObj fields => processSingle st ctx (.vObj fields)

/-- The per-item mapping of processBatchRequest: each batch item is
processed by processRequest against context.createChild(), the
no-argument call of part_012 line 170. -/
def processItems (st : EngineState) (freshUuid : String) (clock : Int)
    (ctx : RequestContext) : List JsValue → List (Option RpcResult)
  | [] => []
  | x :: xs =>
    processRequest st freshUuid clock (ctx.createChild freshUuid clock none) x ::
      processItems st freshUuid clock ctx xs
end

/-- An engine with an empty registry (production mode). -/
def emptyEngine : EngineState := { methods := [], devMode := false }

/-- A concrete root context (unauthenticated, empty path). -/
def ctx0 : RequestContext :=
  { correlationId := "root", startTime := 0, path := [], authContext := none }

/-- Whether an envelope carries an id (its id property does not read as
undefined): the requests that are not notifications. -/
def carriesId (request : JsValue) : Bool :=
  match getFieldV request "id" with
  | .vUndefined => false
  | _ => true

/-- The id of the single response held in a processRequest result, when
the result is exactly one response. -/
def respIdOf : Option RpcResult → Option JsValue
  | some (.resp r) => some r.id
  | _ => none

/-- handleMethodError always passes the id it was given into the
response. -/
theorem handleMethodError_id (d : Bool) (idv : JsValue) (e : ThrownError) :
    (handleMethodError d idv e).id = idv := by
  cases e <;> rfl

/-- On an object envelope whose id reads as a wire-legal present id,
validateRequest salvages exactly that id in every failing clause it can
still reach. -/
theorem validateRequest_obj_salvage (fields : List (String × JsValue))
    (h : isBadId (getField fields "id") = false) :
    (validateRequest (JsValue.vObj fields)).salvagedId = getField fields "id" ∨
      (validateRequest (JsValue.vObj fields)).valid = true := by
  unfold validateRequest
  simp only [jsFalsy, jsTypeofObject, getFieldV, Bool.not_true, Bool.or_false, Bool.false_or]
  split
  · simp_all
  · split
    · exact Or.inl rfl
    · split
      · exact Or.inl rfl
      · split
        · exact Or.inl rfl
        · rw [h]
          simp

/-- Core of claim C8 at the level of the single-envelope path. -/
theorem processSingle_id_of_salvageable (st : EngineState) (ctx : RequestContext)
    (fields : List (String × JsValue))
    (h : isSalvageable (getField fields "id") = true) :
    respIdOf (processSingle st ctx (JsValue.vObj fields)) = some (getField fields "id") := by
  have hbad : isBadId (getField fields "id") = false := by
    cases hidv : getField fields "id" <;> rw [hidv] at h <;> simp_all [isSalvageable, isBadId]
  unfold processSingle
  simp only [getFieldV]
  by_cases hval : (validateRequest (JsValue.vObj fields)).valid
  · simp only [hval, if_true]
    cases hidv : getField fields "id" <;> rw [hidv] at h <;>
      simp only [isSalvageable, Bool.false_eq_true] at h
    all_goals
      cases hinv : invokeMethod st (jsStrVal (getField fields "method"))
          (getField fields "params") ctx with
      | ok r => simp [hinv, respIdOf]
      | error e => simp [hinv, respIdOf, handleMethodError_id]
  · simp only [Bool.not_eq_true] at hval
    simp only [hval, Bool.false_eq_true, if_false]
    rcases validateRequest_obj_salvage fields hbad with hs | hv
    · simp [respIdOf, createErrorResponse, hs]
    · rw [hv] at hval
      exact absurd hval (by simp)

/-- C8: for every single envelope whose id field is present and is a
string, number, or null, the response returned by processRequest
carries an id equal to the request id, in the success case and in
every error case alike (wrong protocolVersion, method not found,
invalid params, handler errors). -/
theorem C8_response_id_equals_request_id (st : EngineState) (freshUuid : String)
    (clock : Int) (ctx : RequestContext) (fields : List (String × JsValue))
    (h : isSalvageable (getField fields "id") = true) :
    respIdOf (processRequest st freshUuid clock ctx (JsValue.vObj fields)) =
      some (getField fields "id") := by
  have hp : processRequest st freshUuid clock ctx (JsValue.vObj fields) =
      processSingle st ctx (JsValue.vObj fields) := by
    simp [processRequest]
  rw [hp]
  exact processSingle_id_of_salvageable st ctx fields h

/-- Witness for C8: the spec example envelope with protocolVersion
"1.0" and id 2 gets a response carrying id 2. -/
theorem C8_witness :
    respIdOf (processRequest emptyEngine "u0" 0 ctx0 (JsValue.vObj
      [("jsonrpc", JsValue.vStr "1.0"), ("method", JsValue.vStr "ping"),
       ("id", JsValue.vNum 2)])) = some (JsValue.vNum 2) :=
  C8_response_id_equals_request_id emptyEngine "u0" 0 ctx0
    [("jsonrpc", JsValue.vStr "1.0"), ("method", JsValue.vStr "ping"),
     ("id", JsValue.vNum 2)] (by rfl)

/-- A notification envelope (no id) naming a method absent from the
registry. -/
def notifUnknownMethod : JsValue :=
  .vObj [("jsonrpc", .vStr "2.0"), ("method", .vStr "nosuch")]

/-- C1: the claim says a notification produces no response even on
error; on the code, the notification path has no per-call catch, so the
METHOD_NOT_FOUND error thrown for this id-less envelope escapes to the
outer catch of processRequest, which returns an INTERNAL_ERROR
response with id null instead of null. -/
theorem C1_notification_error_produces_response (freshUuid : String) (clock : Int) :
    carriesId notifUnknownMethod = false ∧
    processRequest emptyEngine freshUuid clock ctx0 notifUnknownMethod =
      some (.resp (createErrorResponse .vNull INTERNAL_ERROR "Internal error"
        (some (.vObj [("message", .vStr "Method not found: nosuch")])))) := by
  constructor <;> rfl

/-- C2: the claim (and the repository test suite) says the empty batch
yields a single non-array INVALID_REQUEST response with id null; the
code returns that response wrapped in a one-element array. -/
theorem C2_empty_batch_response_is_wrapped (freshUuid : String) (clock : Int) :
    processRequest emptyEngine freshUuid clock ctx0 (.vArr []) =
      some (.arr [.resp (createErrorResponse .vNull INVALID_REQUEST
        "Invalid Request: Empty batch" none)]) := by
  rfl

/-- A handler resolving to the number 1. -/
def pingHandlerOne : JsValue → RequestContext → Except ThrownError JsValue :=
  fun _ _ => .ok (.vNum 1)

/-- A handler resolving to the number 2. -/
def pingHandlerTwo : JsValue → RequestContext → Except ThrownError JsValue :=
  fun _ _ => .ok (.vNum 2)

/-- A schema accepting any params unchanged. -/
def anySchema : JsValue → Except (String × JsValue) JsValue := fun p => .ok p

/-- The engine after registering the name "ping" twice with two
distinguishable handlers. -/
def engineDoubleReg : EngineState :=
  registerMethod
    (registerMethod emptyEngine "ping" pingHandlerOne anySchema none)
    "ping" pingHandlerTwo anySchema none

/-- C3: the claim (and the repository test suite) says a second
registerMethod with the same name throws; on the code the second call
returns normally and silently overwrites the first registration: the
registry still holds one entry for "ping" and a subsequent call is
served by the second handler. -/
theorem C3_duplicate_registration_silently_overwrites (freshUuid : String) (clock : Int) :
    engineDoubleReg.methods.map Prod.fst = ["ping"] ∧
    processRequest engineDoubleReg freshUuid clock ctx0
      (.vObj [("jsonrpc", .vStr "2.0"), ("method", .vStr "ping"), ("id", .vNum 7)]) =
      some (.resp { result := some (.vNum 2), error := none, id := .vNum 7 }) := by
  constructor <;> rfl

/-- C4: the claim says the batch output has exactly one response per
id-carrying request; for the batch holding one notification whose
processing errors (unknown method), the code returns a one-element
response array although the batch contains zero id-carrying requests. -/
theorem C4_batch_length_counterexample (freshUuid : String) (clock : Int) :
    ([notifUnknownMethod].filter carriesId).length = 0 ∧
    processRequest emptyEngine freshUuid clock ctx0 (.vArr [notifUnknownMethod]) =
      some (.arr [.resp (createErrorResponse .vNull INTERNAL_ERROR "Internal error"
        (some (.vObj [("message", .vStr "Method not found: nosuch")])))]) := by
  constructor <;> rfl

/-! API key manager, from src/middleware/auth.ts (src/unnamed/part_009). -/

/-- An ApiKey record; expires is modelled as the parsed timestamp the
TypeScript obtains through new Date(expires) (none for a null
expires). -/
structure ApiKey where
  key : String
  keyName : String
  clientId : String
  permissions : List String
  authorizedSites : List String
  active : Bool
  created : String
  expires : Option Int
deriving Repr, DecidableEq

/-- The result record of ApiKeyManager.validateApiKey. -/
structure KeyValidation where
  valid : Bool
  clientId : Option String
  authorizedSites : Option (List String)
  permissions : Option (List String)
  scopes : Option (List String)
deriving Repr, DecidableEq

/-- ApiKeyManager.validateApiKey on the currently loaded key set, with
the current time (new Date()) passed explicitly: find the first record
whose key matches, reject when absent, inactive, or when expires is set
and earlier than now; otherwise return the record's identity fields
with an empty scopes list. -/
def validateApiKey (keys : List ApiKey) (now : Int) (apiKey : String) : KeyValidation :=
  match keys.find? (fun k => k.key == apiKey) with
  | none => ⟨false, none, none, none, none⟩
  | some k =>
    if !k.active then ⟨false, none, none, none, none⟩
    else
      match k.expires with
      | some e =>
        if e < now then ⟨false, none, none, none, none⟩
        else ⟨true, some k.clientId, some k.authorizedSites, some k.permissions, some []⟩
      | none => ⟨true, some k.clientId, some k.authorizedSites, some k.permissions, some []⟩

/-- ApiKeyManager state: the configured source and path, the active key
set, the loading flag and the last successful load time. -/
structure ApiKeyState where
  source : String
  path : String
  keys : List ApiKey
  loading : Bool
  lastLoaded : Int

/-- Outcome of the file read plus JSON parse performed by
loadKeysFromFile: the parsed document (whose keys array may be absent,
read as storage.keys with a fallback to the empty list), or a thrown
error from fs.readFile or JSON.parse. -/
inductive FileLoadResult where
  | ok (storageKeys : Option (List ApiKey)) : FileLoadResult
  | err : FileLoadResult

/-- ApiKeyManager.loadKeysFromFile: on a successful read-and-parse the
whole key set is replaced (storage.keys or the empty list); a thrown
error is logged and rethrown with the key set untouched. The Bool
records whether the call threw. -/
def loadKeysFromFile (st : ApiKeyState) (file : FileLoadResult) : ApiKeyState × Bool :=
  match file with
  | .ok storageKeys => ({ st with keys := storageKeys.getD [] }, false)
  | .err => (st, true)

/-- ApiKeyManager.loadKeys: returns at once when a load is in flight;
otherwise sets loading, dispatches on the source ("file" loads from the
file outcome, "env" replaces the key set with the environment-derived
records, "aws" and unknown sources only log), updates lastLoaded only
when the dispatch did not throw, and swallows any thrown error in its
catch — the caller never observes a failure. -/
def loadKeys (st : ApiKeyState) (now : Int) (file : FileLoadResult)
    (envKeys : List ApiKey) : ApiKeyState :=
  if st.loading then st
  else
    let st1 := { st with loading := true }
    let outcome :=
      if st1.source == "file" then loadKeysFromFile st1 file
      else if st1.source == "env" then ({ st1 with keys := envKeys }, false)
      else (st1, false)
    let st2 := if outcome.2 then outcome.1 else { outcome.1 with lastLoaded := now }
    { st2 with loading := false }

/-- C9: a failed key-reload attempt (file read or JSON parse throws) is
swallowed by loadKeys, leaves the previously loaded key set unchanged
(and does not advance lastLoaded), and every subsequent validateApiKey
call behaves exactly as before the failed reload. -/
theorem C9_failed_reload_preserves_validation (st : ApiKeyState) (now : Int)
    (envKeys : List ApiKey) (hs : st.source = "file") :
    (loadKeys st now .err envKeys).keys = st.keys ∧
    (loadKeys st now .err envKeys).lastLoaded = st.lastLoaded ∧
    ∀ t k, validateApiKey (loadKeys st now .err envKeys).keys t k =
      validateApiKey st.keys t k := by
  unfold loadKeys loadKeysFromFile
  by_cases hl : st.loading
  · simp [hl]
  · simp [hl, hs]

/-- Witness for C9: a concrete file-sourced manager state keeps its key
set across a failed reload. -/
theorem C9_witness :
    (loadKeys ⟨"file", "keys.json",
        [⟨"k1", "n1", "c1", [], [], true, "t0", none⟩], false, 11⟩
      99 .err []).keys = [⟨"k1", "n1", "c1", [], [], true, "t0", none⟩] :=
  (C9_failed_reload_preserves_validation
    ⟨"file", "keys.json", [⟨"k1", "n1", "c1", [], [], true, "t0", none⟩], false, 11⟩
    99 [] rfl).1

/-- Claim predicate for C5, modelled from the spec words: some record
in the loaded key set has key equal to k, is active, and its expires is
null or strictly in the future. -/
def specSomeRecordValid (keys : List ApiKey) (now : Int) (apiKey : String) : Prop :=
  ∃ k ∈ keys, k.key = apiKey ∧ k.active = true ∧
    (k.expires = none ∨ ∃ e, k.expires = some e ∧ now < e)

/-- An inactive record for the key string "k". -/
def inactiveKeyRecord : ApiKey := ⟨"k", "n1", "c1", [], [], false, "t0", none⟩

/-- An active, never-expiring record for the same key string "k". -/
def activeKeyRecord : ApiKey := ⟨"k", "n2", "c2", [], [], true, "t0", none⟩

/-- A key set holding both records, the inactive one first. -/
def dupKeys : List ApiKey := [inactiveKeyRecord, activeKeyRecord]

/-- A record whose expires equals the probe time exactly. -/
def boundaryKeyRecord : ApiKey := ⟨"kb", "nb", "cb", [], [], true, "t0", some 5⟩

/-- C5 counterexample: the claim as stated fails on the code at two
concrete inputs. With two records sharing the key string "k" (the first
inactive, the second active and unexpired), some record satisfies the
claim's condition yet validateApiKey returns invalid, because the code
consults only the first match of find. And for a record whose expires
equals the current time, validateApiKey returns valid although the
expiry is not strictly in the future. -/
theorem C5_counterexample :
    (¬ (((validateApiKey dupKeys 0 "k").valid = true) ↔ specSomeRecordValid dupKeys 0 "k")) ∧
    ((validateApiKey [boundaryKeyRecord] 5 "kb").valid = true ∧
      ¬ specSomeRecordValid [boundaryKeyRecord] 5 "kb") := by
  refine ⟨fun hiff => ?_, rfl, ?_⟩
  · have hspec : specSomeRecordValid dupKeys 0 "k" :=
      ⟨activeKeyRecord, by simp [dupKeys], rfl, rfl, Or.inl rfl⟩
    have hv := hiff.mpr hspec
    simp [validateApiKey, dupKeys, inactiveKeyRecord, activeKeyRecord] at hv
  · rintro ⟨k, hk, hkey, hact, hexp⟩
    simp only [dupKeys, boundaryKeyRecord, List.mem_singleton] at hk
    subst hk
    rcases hexp with he | ⟨e, he, hlt⟩
    · simp at he
    · simp only [Option.some.injEq] at he
      omega

/-- C5 amended: validateApiKey returns a valid result iff the first
record of the loaded key set whose key equals k is active and its
expires is either null or not earlier than the current time; in every
other case it returns the record with valid false and no identity
fields, even when the key string matches a record exactly. -/
theorem C5_first_match_validity (keys : List ApiKey) (now : Int) (apiKey : String) :
    ((validateApiKey keys now apiKey).valid = true ↔
      ∃ k, keys.find? (fun k2 => k2.key == apiKey) = some k ∧ k.active = true ∧
        (k.expires = none ∨ ∃ e, k.expires = some e ∧ ¬ e < now)) ∧
    ((validateApiKey keys now apiKey).valid = false →
      validateApiKey keys now apiKey = ⟨false, none, none, none, none⟩) := by
  unfold validateApiKey
  cases hf : keys.find? (fun k2 => k2.key == apiKey) with
  | none => simp
  | some k =>
    by_cases ha : k.active
    · cases he : k.expires with
      | none => simp [ha, he]
      | some e =>
        by_cases hlt : e < now
        · simp [ha, he, hlt]
        · simp [ha, he, hlt]
          omega
    · simp [ha]

/-- Witness for C5: the amended statement instantiated at the
duplicate-key set — the first matching record is inactive, so the valid
outcome is impossible there. -/
theorem C5_witness :
    (validateApiKey dupKeys 0 "k").valid = false →
      validateApiKey dupKeys 0 "k" = ⟨false, none, none, none, none⟩ :=
  (C5_first_match_validity dupKeys 0 "k").2

/-! WordPress site manager, from src/wordpress/site-manager.ts
(stored in src/src/wordpress/tools/tags.ts). -/

/-- Credentials of one site (username and application password). -/
structure WordPressCredentials where
  username : String
  applicationPassword : String
deriving Repr, DecidableEq

/-- WordPressSiteConfig from src/wordpress/types.ts: base URL, the
credentials, and the optional tuning fields. -/
structure WordPressSiteConfig where
  baseUrl : String
  credentials : WordPressCredentials
  maxConcurrent : Option Int
  timeout : Option Int
  cacheEnabled : Option Bool
  cacheTimeout : Option Int
deriving Repr, DecidableEq

/-- A WordPress client is constructed from a site configuration (new
WordPressClient(config)); its network behaviour is abstracted by the
probe oracle passed to getClient. -/
structure WordPressClient where
  config : WordPressSiteConfig
deriving Repr, DecidableEq

/-- WordPressSiteManager state: the site map and the client cache. -/
structure SiteManagerState where
  sites : List (String × WordPressSiteConfig)
  clients : List (String × WordPressClient)
deriving Repr, DecidableEq

/-- Outcome of getClient: the client, or a thrown JsonRpcError whose
data carries the siteId. -/
inductive GetClientOutcome where
  | ok (client : WordPressClient) : GetClientOutcome
  | err (code : Int) (message : String) (siteId : String) : GetClientOutcome
deriving Repr, DecidableEq

/-- WordPressSiteManager.getClient, with checkConnection abstracted as
the probe oracle: unknown site throws -32001 at once; a cached client
is returned as-is; otherwise the client is constructed from the site
configuration, probed, and cached only when the probe succeeds — a
failed probe throws -32002 and leaves the cache untouched. The site
existence test and the configuration read (has then get) are fused into
one lookup. -/
def getClient (probe : WordPressClient → Bool) (st : SiteManagerState)
    (siteId : String) : GetClientOutcome × SiteManagerState :=
  match mapGet st.sites siteId with
  | none => (.err (-32001) ("Unknown WordPress site: " ++ siteId) siteId, st)
  | some config =>
    match mapGet st.clients siteId with
    | some c => (.ok c, st)
    | none =>
      let client : WordPressClient := ⟨config⟩
      if probe client then
        (.ok client, { st with clients := mapSet st.clients siteId client })
      else
        (.err (-32002) ("Failed to connect to WordPress site: " ++ siteId) siteId, st)

/-- Membership after Map.set: an entry of the updated map is an entry
of the old map or the inserted pair. -/
theorem mem_mapSet {α : Type} (m : List (String × α)) (key : String) (v : α)
    (p : String × α) (h : p ∈ mapSet m key v) : p ∈ m ∨ p = (key, v) := by
  induction m with
  | nil =>
    simp only [mapSet, List.mem_singleton] at h
    exact Or.inr h
  | cons hd tl ih =>
    rw [mapSet] at h
    by_cases hk : hd.1 == key
    · rw [if_pos hk] at h
      rcases List.mem_cons.mp h with h1 | h1
      · exact Or.inr h1
      · exact Or.inl (List.mem_cons_of_mem hd h1)
    · rw [if_neg hk] at h
      rcases List.mem_cons.mp h with h1 | h1
      · exact Or.inl (by rw [h1]; simp)
      · rcases ih h1 with h2 | h2
        · exact Or.inl (List.mem_cons_of_mem hd h2)
        · exact Or.inr h2

/-- C6: the client cache only ever contains clients whose connectivity
probe succeeded — the invariant is preserved by getClient — and
whenever getClient throws (either error) the state, in particular the
cache, is left unchanged, so a later call for the same site re-attempts
construction instead of returning a cached broken client. -/
theorem C6_cache_only_connected (probe : WordPressClient → Bool)
    (st : SiteManagerState) (siteId : String)
    (hInv : ∀ p ∈ st.clients, probe p.2 = true) :
    (∀ p ∈ (getClient probe st siteId).2.clients, probe p.2 = true) ∧
    (∀ code msg sid, (getClient probe st siteId).1 = .err code msg sid →
      (getClient probe st siteId).2 = st) := by
  unfold getClient
  cases hs : mapGet st.sites siteId with
  | none => exact ⟨hInv, fun _ _ _ _ => rfl⟩
  | some config =>
    cases hc : mapGet st.clients siteId with
    | some c => exact ⟨hInv, by intro code msg sid hcontra; cases hcontra⟩
    | none =>
      by_cases hp : probe ⟨config⟩
      · refine ⟨?_, ?_⟩
        · intro p hmem
          simp only [hp, if_true] at hmem
          rcases mem_mapSet st.clients siteId ⟨config⟩ p hmem with h2 | h2
          · exact hInv p h2
          · rw [h2]
            exact hp
        · intro code msg sid hcontra
          simp only [hp, if_true] at hcontra
          cases hcontra
      · simp only [hp, if_false]
        exact ⟨hInv, fun _ _ _ _ => rfl⟩

/-- C7: getClient throws -32001 for a site absent from the configured
site map, leaving the state unchanged (no client is constructed or
cached), and throws -32002 when the connectivity probe of a freshly
constructed client fails, also leaving the state unchanged. -/
theorem C7_error_codes (probe : WordPressClient → Bool) (st : SiteManagerState)
    (siteId : String) :
    (mapGet st.sites siteId = none →
      getClient probe st siteId =
        (.err (-32001) ("Unknown WordPress site: " ++ siteId) siteId, st)) ∧
    (∀ config, mapGet st.sites siteId = some config →
      mapGet st.clients siteId = none → probe ⟨config⟩ = false →
      getClient probe st siteId =
        (.err (-32002) ("Failed to connect to WordPress site: " ++ siteId) siteId, st)) := by
  constructor
  · intro hs
    unfold getClient
    rw [hs]
  · intro config hs hc hp
    unfold getClient
    rw [hs, hc]
    simp [hp]

/-- Credentials and configurations for the witness states; the two
configurations differ only in the application password. -/
def credsA : WordPressCredentials := ⟨"alice", "pw1"⟩

def credsB : WordPressCredentials := ⟨"alice", "pw2"⟩

def cfgA : WordPressSiteConfig := ⟨"https://a.example", credsA, none, none, none, none⟩

def cfgB : WordPressSiteConfig := ⟨"https://a.example", credsB, none, none, none, none⟩

/-- A manager knowing one site and holding no cached client. -/
def stOneSite : SiteManagerState := ⟨[("site1", cfgA)], []⟩

/-- A manager with no configured sites. -/
def stNoSites : SiteManagerState := ⟨[], []⟩

/-- Witness for C6: with an always-failing probe and an empty cache,
getClient for the configured site leaves the state unchanged. -/
theorem C6_witness :
    (getClient (fun _ => false) stOneSite "site1").2 = stOneSite :=
  (C6_cache_only_connected (fun _ => false) stOneSite "site1"
      (by intro p hp; cases hp)).2
    (-32002) ("Failed to connect to WordPress site: " ++ "site1") "site1" rfl

/-- Witness for C7: the unknown site "nosite" yields -32001 on the
empty manager, and a failing probe on the configured site yields
-32002. -/
theorem C7_witness :
    getClient (fun _ => false) stNoSites "nosite" =
      (.err (-32001) ("Unknown WordPress site: " ++ "nosite") "nosite", stNoSites) ∧
    getClient (fun _ => false) stOneSite "site1" =
      (.err (-32002) ("Failed to connect to WordPress site: " ++ "site1") "site1",
        stOneSite) :=
  ⟨(C7_error_codes (fun _ => false) stNoSites "nosite").1 rfl,
   (C7_error_codes (fun _ => false) stOneSite "site1").2 cfgA rfl rfl rfl⟩

/-- The credential-free view of a site configuration: the type of
Omit over the credentials field used by getSiteConfig and by the
document written by saveSiteConfigurations. -/
structure SafeWordPressSiteConfig where
  baseUrl : String
  maxConcurrent : Option Int
  timeout : Option Int
  cacheEnabled : Option Bool
  cacheTimeout : Option Int
deriving Repr, DecidableEq

/-- The destructuring const (credentials, ...safeConfig) = config used
by getSiteConfig and saveSiteConfigurations: every field except
credentials is kept. -/
def stripCredentials (c : WordPressSiteConfig) : SafeWordPressSiteConfig :=
  ⟨c.baseUrl, c.maxConcurrent, c.timeout, c.cacheEnabled, c.cacheTimeout⟩

/-- WordPressSiteManager.getSiteConfig: the stored configuration with
the credentials field stripped, or null for an unknown site. -/
def getSiteConfig (st : SiteManagerState) (siteId : String) :
    Option SafeWordPressSiteConfig :=
  (mapGet st.sites siteId).map stripCredentials

/-- The configuration document written by
WordPressSiteManager.saveSiteConfigurations (invoked by addSite and
removeSite): one credential-stripped entry per site, in map order. -/
def saveSiteConfigurations (st : SiteManagerState) :
    List (String × SafeWordPressSiteConfig) :=
  st.sites.map (fun p => (p.1, stripCredentials p.2))

/-- Map.get commutes with a per-entry value map. -/
theorem mapGet_map {α β : Type} (f : α → β) (m : List (String × α)) (key : String) :
    mapGet (m.map (fun p => (p.1, f p.2))) key = (mapGet m key).map f := by
  induction m with
  | nil => rfl
  | cons hd tl ih =>
    by_cases hk : hd.1 == key
    · simp [mapGet, hk]
    · simp only [List.map_cons, mapGet, hk, if_false, Bool.false_eq_true]
      exact ih

/-- C10: credentials never reach the site-manager query interface or
the persisted configuration document — two site maps agreeing on
everything except the credentials field are indistinguishable through
getSiteConfig and produce identical saveSiteConfigurations documents,
whatever clients are cached. -/
theorem C10_credentials_not_exposed
    (sites1 sites2 : List (String × WordPressSiteConfig))
    (clients1 clients2 : List (String × WordPressClient))
    (h : sites1.map (fun p => (p.1, stripCredentials p.2)) =
      sites2.map (fun p => (p.1, stripCredentials p.2))) :
    (∀ siteId, getSiteConfig ⟨sites1, clients1⟩ siteId =
      getSiteConfig ⟨sites2, clients2⟩ siteId) ∧
    saveSiteConfigurations ⟨sites1, clients1⟩ =
      saveSiteConfigurations ⟨sites2, clients2⟩ := by
  constructor
  · intro siteId
    unfold getSiteConfig
    have h1 := mapGet_map stripCredentials sites1 siteId
    have h2 := mapGet_map stripCredentials sites2 siteId
    rw [← h1, ← h2, h]
  · unfold saveSiteConfigurations
    exact h

/-- Witness for C10: two one-site managers whose configurations differ
only in the application password write the same configuration
document. -/
theorem C10_witness :
    saveSiteConfigurations ⟨[("site1", cfgA)], []⟩ =
      saveSiteConfigurations ⟨[("site1", cfgB)], []⟩ :=
  (C10_credentials_not_exposed [("site1", cfgA)] [("site1", cfgB)] [] [] rfl).2
